import Mathlib

/-!
Verification of the metald multi-tenant network fabric and VM lifecycle
engine (Go sources under `go/deploy/metald/internal/network`,
`go/deploy/metald/internal/service`, and the unnamed firecracker SDK
client file).

Shallow embedding conventions:
* Go strings that are hashed byte-wise (workspace / project ids) are
  modelled as `List Nat` byte lists (`WID`).  Display strings (bridge
  names, kernel arguments, MAC addresses) are Lean `String`s /
  `List Char`.
* Go `int` fields that validation code compares against 0 are `Int`;
  quantities that are provably non-negative at their definition site
  (hash results) are `Nat`.
* Machine arithmetic on bytes (`byte(x)`, `ip[3] += b`) is explicit
  `% 256` arithmetic.
* Fallible Go functions returning `error` become `Except`; the distinct
  `fmt.Errorf` sites are represented by constructors of error
  inductives (the formatted message text itself is not modelled).
* File-system effects (`saveState` writing to disk) are modelled by a
  `saveOk` environment flag plus a `persisted` snapshot field, so the
  rollback-on-persistence-failure paths of the source are preserved.
-/

/-- Workspace / project identifiers: the byte sequence of the Go string. -/
abbrev WID := List Nat

deriving instance DecidableEq for Except

/-- FNV-1a 32-bit hash (Go `hash/fnv.New32a`): offset basis 2166136261,
prime 16777619, xor-then-multiply over each byte, truncated to 32 bits. -/
def fnv1a32 (bytes : WID) : Nat :=
  bytes.foldl (fun h b => ((h ^^^ (b % 256)) * 16777619) % 4294967296) 2166136261

/-- An IPv4 address as four octets (Go `net.IP` of length 4). -/
structure IPv4 where
  a : Nat
  b : Nat
  c : Nat
  d : Nat
deriving Repr, DecidableEq

/-- Render an IPv4 address as in Go `net.IP.String()` for dotted quads. -/
def ipToString (ip : IPv4) : String :=
  toString ip.a ++ "." ++ toString ip.b ++ "." ++ toString ip.c ++ "." ++ toString ip.d

/-- A parsed CIDR such as `172.16.3.64/27` (Go `net.IPNet` restricted to
prefix length ≥ 24, which covers every CIDR this package builds: /24,
/27 and /29 all mask only the last octet). -/
structure CIDR where
  o1 : Nat
  o2 : Nat
  o3 : Nat
  o4 : Nat
  bits : Nat
deriving Repr, DecidableEq

/-- Number of host addresses inside the last octet for a prefix ≥ 24. -/
def hostSize (bits : Nat) : Nat := 2 ^ (32 - bits)

/-- The network base of the last octet after masking (what Go
`net.ParseCIDR` returns as `network.IP[3]`). -/
def cidrBase (c : CIDR) : Nat := c.o4 / hostSize c.bits * hostSize c.bits

/-- Go `(*net.IPNet).Contains` for prefixes ≥ 24: first three octets
match and the last octet lies inside the masked block. -/
def cidrContains (c : CIDR) (ip : IPv4) : Bool :=
  ip.a = c.o1 && ip.b = c.o2 && ip.c = c.o3 &&
    ip.d / hostSize c.bits * hostSize c.bits = cidrBase c

/-- Render a CIDR as Go `(*net.IPNet).String()` does for these masks. -/
def cidrToString (c : CIDR) : String :=
  toString c.o1 ++ "." ++ toString c.o2 ++ "." ++ toString c.o3 ++ "." ++
    toString c.o4 ++ "/" ++ toString c.bits

/-- Go `byte(n)` conversion of an `int`: two's-complement truncation,
i.e. the value modulo 256 (non-negative). -/
def intToByte (n : Int) : Nat := (n % 256).toNat

/-- `ProjectVLAN` (multibridge.go lines 51-57): a project's VLAN within
a bridge.  `SubnetCIDR` is kept in parsed form (the Go code only ever
stores strings produced by `calculateVLANSubnet`). -/
structure ProjectVLAN where
  projectID : WID
  vlanNumber : Int
  subnetCIDR : CIDR
  nextVMIndex : Int
  createdAt : String
deriving Repr, DecidableEq

/-- `WorkspaceAllocation` (multibridge.go lines 41-48). -/
structure WorkspaceAllocation where
  workspaceID : WID
  bridgeNumber : Int
  bridgeName : String
  projectVLANs : List (WID × ProjectVLAN)
  createdAt : String
  vmCount : Int
deriving Repr, DecidableEq

/-- The mutable manager state (`MultiBridgeManager`, multibridge.go
lines 28-38), with maps as association lists, plus the persistence
environment: `saveOk` says whether `saveState` will succeed, and
`persisted` is the last snapshot successfully written to disk. -/
structure MBState where
  bridgeCount : Nat
  bridgePfx : String
  workspaces : List (WID × WorkspaceAllocation)
  bridgeUsage : List (Int × List WID)
  saveOk : Bool
  persisted : Option (List (WID × WorkspaceAllocation) × List (Int × List WID))
deriving Repr, DecidableEq

/-- `GetBridgeForWorkspace` (multibridge.go lines 98-103): FNV-1a of the
workspace id modulo the configured bridge count. -/
def GetBridgeForWorkspace (bridgeCount : Nat) (workspaceID : WID) : Nat :=
  fnv1a32 workspaceID % bridgeCount

/-- `calculateVLANSubnet` (multibridge.go lines 162-170): the /27 slice
of the bridge /24 at offset `(vlan mod 8) * 32`. -/
def calculateVLANSubnet (bridgeNumber : Nat) (vlanNumber : Int) : CIDR :=
  { o1 := 172, o2 := 16, o3 := bridgeNumber,
    o4 := (intToByte (vlanNumber % 8)) * 32 % 256, bits := 27 }

/-- Set `bridgeUsage[bridgeNum][workspaceID] = true` on an association
list (the `if … == nil { make }` + assignment pattern used at
multibridge.go lines 382-385 and 1004-1007). -/
def addUsage (bu : List (Int × List WID)) (bridgeNum : Int) (w : WID) :
    List (Int × List WID) :=
  match bu with
  | [] => [(bridgeNum, [w])]
  | (bn, ids) :: rest =>
    if bn = bridgeNum then
      (bn, if w ∈ ids then ids else w :: ids) :: rest
    else
      (bn, ids) :: addUsage rest bridgeNum w

/-- Replace the allocation stored under key `w` (Go mutates the struct
through the map's pointer). -/
def updateAlloc (ws : List (WID × WorkspaceAllocation)) (w : WID)
    (f : WorkspaceAllocation → WorkspaceAllocation) :
    List (WID × WorkspaceAllocation) :=
  ws.map (fun p => if p.1 = w then (p.1, f p.2) else p)

/-- Association-list lookup (Go map read `m[k]`). -/
def lookupW (ws : List (WID × WorkspaceAllocation)) (w : WID) :
    Option WorkspaceAllocation :=
  match ws with
  | [] => none
  | (k, a) :: rest => if k = w then some a else lookupW rest w

/-- Distinct failure sites of `validateBridgeAllocation`
(multibridge.go lines 844-873), in source order. -/
inductive BridgeValidationError where
  | outOfRange
  | emptyWorkspaceID
  | negativeVMCount
  | capacityExceeded
  | nameMismatch
deriving Repr, DecidableEq

/-- `validateBridgeAllocation` (multibridge.go lines 844-873). -/
def validateBridgeAllocation (bridgeCount : Nat) (pfx : String)
    (allocation : WorkspaceAllocation) : Except BridgeValidationError Unit :=
  if allocation.bridgeNumber < 0 ∨ allocation.bridgeNumber ≥ (bridgeCount : Int) then
    .error .outOfRange
  else if allocation.workspaceID = [] then
    .error .emptyWorkspaceID
  else if allocation.vmCount < 0 then
    .error .negativeVMCount
  else if allocation.vmCount ≥ 5 then
    .error .capacityExceeded
  else if allocation.bridgeName ≠ pfx ++ "-" ++ toString allocation.bridgeNumber then
    .error .nameMismatch
  else
    .ok ()

/-- Distinct failure sites of `validateVMIPAllocation`
(multibridge.go lines 876-909), in source order. -/
inductive VMIPValidationError where
  | baseNotAligned
  | baseOutOfRange
  | ipOutsideRange
  | ipCalcMismatch
  | vmCountInvalid
deriving Repr, DecidableEq

/-- `validateVMIPAllocation` (multibridge.go lines 876-909). -/
def validateVMIPAllocation (workspaceSubnetBase vmIP vmCount : Int) :
    Except VMIPValidationError Unit :=
  if workspaceSubnetBase % 8 ≠ 0 then .error .baseNotAligned
  else if workspaceSubnetBase < 0 ∨ workspaceSubnetBase > 248 then .error .baseOutOfRange
  else if vmIP < workspaceSubnetBase + 2 ∨ vmIP > workspaceSubnetBase + 6 then
    .error .ipOutsideRange
  else if vmIP ≠ workspaceSubnetBase + 2 + vmCount then .error .ipCalcMismatch
  else if vmCount < 0 ∨ vmCount ≥ 5 then .error .vmCountInvalid
  else .ok ()

/-- Distinct failure sites of `validateIPWithinWorkspaceSubnet`
(multibridge.go lines 912-954). -/
inductive SubnetValidationError where
  | parseFail
  | notInSubnet
  | notUsable
deriving Repr, DecidableEq

/-- `validateIPWithinWorkspaceSubnet` (multibridge.go lines 912-954):
builds `172.16.<bridge>.<base>/29`, checks membership, then checks the
last octet against first/last usable (`base+2` … `base+6`; the `+= 2`
and `+= 6` byte additions wrap modulo 256 as in Go). -/
def validateIPWithinWorkspaceSubnet (ip : IPv4)
    (bridgeNumber workspaceSubnetBase : Int) : Except SubnetValidationError Unit :=
  if bridgeNumber < 0 ∨ bridgeNumber > 255 ∨
      workspaceSubnetBase < 0 ∨ workspaceSubnetBase > 255 then
    .error .parseFail
  else
    let workspaceNet : CIDR :=
      { o1 := 172, o2 := 16, o3 := bridgeNumber.toNat,
        o4 := workspaceSubnetBase.toNat, bits := 29 }
    if ¬ cidrContains workspaceNet ip then .error .notInSubnet
    else
      let firstUsable := (cidrBase workspaceNet + 2) % 256
      let lastUsable := (cidrBase workspaceNet + 6) % 256
      if ip.d < firstUsable ∨ ip.d > lastUsable then .error .notUsable
      else .ok ()

/-- Error outcomes of `AllocateIPForWorkspace` (multibridge.go lines
360-464), one constructor per `return nil, "", …` site. -/
inductive AllocError where
  | bridgeValidationFailed (e : BridgeValidationError)
  | invalidBridgeSubnet
  | subnetFull
  | vmIPValidationFailed (e : VMIPValidationError)
  | ipOutsideBridgeSubnet
  | ipSubnetValidationFailed (e : SubnetValidationError)
  | persistFailed
deriving Repr, DecidableEq

/-- `AllocateIPForWorkspace` (multibridge.go lines 360-464).  Returns the
allocated IP and bridge name together with the successor state.  The
get-or-create step, the validation chain, the `/29` slot arithmetic,
the `VMCount` increment, and the save-with-rollback are all taken from
the source in order.  (`net.ParseCIDR` of the `172.16.<bridge>.0/24`
string fails exactly when the bridge octet exceeds 255, since
validation has already ruled out negative values.) -/
def AllocateIPForWorkspace (s : MBState) (workspaceID : WID) :
    Except AllocError (IPv4 × String) × MBState :=
  let existing := lookupW s.workspaces workspaceID
  let allocation : WorkspaceAllocation :=
    match existing with
    | some a => a
    | none =>
      let bn : Int := (GetBridgeForWorkspace s.bridgeCount workspaceID : Int)
      { workspaceID := workspaceID
        bridgeNumber := bn
        bridgeName := s.bridgePfx ++ "-" ++ toString bn
        projectVLANs := []
        createdAt := ""
        vmCount := 0 }
  let s1 : MBState :=
    match existing with
    | some _ => s
    | none =>
      { s with
        workspaces := (workspaceID, allocation) :: s.workspaces
        bridgeUsage := addUsage s.bridgeUsage allocation.bridgeNumber workspaceID }
  match validateBridgeAllocation s1.bridgeCount s1.bridgePfx allocation with
  | .error e => (.error (.bridgeValidationFailed e), s1)
  | .ok _ =>
    if allocation.bridgeNumber > 255 then (.error .invalidBridgeSubnet, s1)
    else
      let workspaceSubnetIndex : Nat := fnv1a32 workspaceID % 32
      let workspaceSubnetBase : Int := (workspaceSubnetIndex * 8 : Nat)
      let vmIP : Int := workspaceSubnetBase + 2 + allocation.vmCount
      if allocation.vmCount ≥ 5 then (.error .subnetFull, s1)
      else
        match validateVMIPAllocation workspaceSubnetBase vmIP allocation.vmCount with
        | .error e => (.error (.vmIPValidationFailed e), s1)
        | .ok _ =>
          let s2 : MBState :=
            { s1 with
              workspaces := updateAlloc s1.workspaces workspaceID
                (fun a => { a with vmCount := a.vmCount + 1 }) }
          let ip : IPv4 :=
            { a := 172, b := 16, c := allocation.bridgeNumber.toNat,
              d := (0 + intToByte vmIP) % 256 }
          if ¬ cidrContains
              { o1 := 172, o2 := 16, o3 := allocation.bridgeNumber.toNat,
                o4 := 0, bits := 24 } ip then
            (.error .ipOutsideBridgeSubnet, s2)
          else
            match validateIPWithinWorkspaceSubnet ip allocation.bridgeNumber
                workspaceSubnetBase with
            | .error e => (.error (.ipSubnetValidationFailed e), s2)
            | .ok _ =>
              if s2.saveOk then
                (.ok (ip, allocation.bridgeName),
                 { s2 with persisted := some (s2.workspaces, s2.bridgeUsage) })
              else
                (.error .persistFailed,
                 { s2 with
                   workspaces := updateAlloc s2.workspaces workspaceID
                     (fun a => { a with vmCount := a.vmCount - 1 }) })

/-- `ReleaseIPForWorkspace` (multibridge.go lines 468-504): decrement
`VMCount` with floor 0, persist, roll back on persistence failure. -/
inductive ReleaseError where
  | workspaceNotFound
  | persistFailed
deriving Repr, DecidableEq

/-- `ReleaseIPForWorkspace` (multibridge.go lines 468-504).  The released
`ip` itself is only logged by the source, so it does not influence the
result. -/
def ReleaseIPForWorkspace (s : MBState) (workspaceID : WID) (_ip : IPv4) :
    Except ReleaseError Unit × MBState :=
  match lookupW s.workspaces workspaceID with
  | none => (.error .workspaceNotFound, s)
  | some allocation =>
    let s2 : MBState :=
      if allocation.vmCount > 0 then
        { s with
          workspaces := updateAlloc s.workspaces workspaceID
            (fun a => { a with vmCount := a.vmCount - 1 }) }
      else s
    if s2.saveOk then
      (.ok (), { s2 with persisted := some (s2.workspaces, s2.bridgeUsage) })
    else
      (.error .persistFailed,
       { s2 with
         workspaces := updateAlloc s2.workspaces workspaceID
           (fun a => { a with vmCount := a.vmCount + 1 }) })

/-- `GetWorkspaceInfo` (multibridge.go lines 210-239): looks up the
workspace and returns a field-by-field copy.  The copy literal at lines
220-226 lists `WorkspaceID`, `BridgeNumber`, `BridgeName`,
`ProjectVLANs`, `CreatedAt` — and omits `VMCount`, which therefore
takes Go's zero value 0 in the copy. -/
def GetWorkspaceInfo (s : MBState) (workspaceID : WID) :
    Except Unit WorkspaceAllocation :=
  match lookupW s.workspaces workspaceID with
  | none => .error ()
  | some workspace =>
    .ok
      { workspaceID := workspace.workspaceID
        bridgeNumber := workspace.bridgeNumber
        bridgeName := workspace.bridgeName
        projectVLANs := workspace.projectVLANs.map (fun p =>
          (p.1,
            { projectID := p.2.projectID
              vlanNumber := p.2.vlanNumber
              subnetCIDR := p.2.subnetCIDR
              nextVMIndex := p.2.nextVMIndex
              createdAt := p.2.createdAt }))
        createdAt := workspace.createdAt
        vmCount := 0 }

/-- Error outcomes shared by the two `AllocateVMIP` variants. -/
inductive AllocVMIPError where
  | vlanFull
  | outsideSubnet
  | persistFailed
deriving Repr, DecidableEq

namespace Multibridge

/-- `AllocateVMIP` from multibridge.go (lines 172-207), acting on the
project VLAN obtained from `GetOrCreateProjectVLAN` (both variants
share that prelude verbatim, so the comparison is made at the VLAN
level): `nextIP := 2 + NextVMIndex`, reject when `nextIP > 30`, add the
byte to the parsed network base, check subnet membership, increment the
index.  This variant does not persist. -/
def AllocateVMIP (vlan : ProjectVLAN) :
    Except AllocVMIPError (IPv4 × ProjectVLAN) :=
  let c := vlan.subnetCIDR
  let nextIP : Int := 2 + vlan.nextVMIndex
  if nextIP > 30 then .error .vlanFull
  else
    let ip : IPv4 :=
      { a := c.o1, b := c.o2, c := c.o3,
        d := (cidrBase c + intToByte nextIP) % 256 }
    if ¬ cidrContains c ip then .error .outsideSubnet
    else .ok (ip, { vlan with nextVMIndex := vlan.nextVMIndex + 1 })

end Multibridge

namespace Unnamed007

/-- `AllocateVMIP` from the unnamed source part_007 (lines 250-295):
`vmOffset := NextVMIndex + 2`, reject when `vmOffset >= 30`, add the
byte to the parsed network base (no membership check), increment the
index, then persist, rolling the index back when `saveState` fails. -/
def AllocateVMIP (saveOk : Bool) (vlan : ProjectVLAN) :
    Except AllocVMIPError (IPv4 × ProjectVLAN) :=
  let c := vlan.subnetCIDR
  let vmOffset : Int := vlan.nextVMIndex + 2
  if vmOffset ≥ 30 then .error .vlanFull
  else
    let ip : IPv4 :=
      { a := c.o1, b := c.o2, c := c.o3,
        d := (cidrBase c + intToByte vmOffset) % 256 }
    if saveOk then .ok (ip, { vlan with nextVMIndex := vlan.nextVMIndex + 1 })
    else .error .persistFailed

end Unnamed007

/-- Uppercase hexadecimal digit, as produced by Go `%02X`. -/
def hexDigit (n : Nat) : Char :=
  if n < 10 then Char.ofNat (48 + n) else Char.ofNat (55 + n)

/-- Go `fmt.Sprintf("%02X", b)` for a byte value: exactly two uppercase
hex digits. -/
def byteToHex (b : Nat) : List Char :=
  [hexDigit (b / 16 % 16), hexDigit (b % 16)]

/-- Whether a character is a hexadecimal digit (either case), as
accepted by Go `fmt.Sscanf` with verb `%X`. -/
def isHexDigitChar (c : Char) : Bool :=
  ('0' ≤ c && c ≤ '9') || ('A' ≤ c && c ≤ 'F') || ('a' ≤ c && c ≤ 'f')

/-- Numeric value of a hexadecimal digit character. -/
def hexCharVal (c : Char) : Nat :=
  if '0' ≤ c && c ≤ '9' then c.toNat - 48
  else if 'A' ≤ c && c ≤ 'F' then c.toNat - 55
  else if 'a' ≤ c && c ≤ 'f' then c.toNat - 87
  else 0

/-- Go `fmt.Sscanf(s, "%02X", &n)` on a two-character slice: consume up
to two hexadecimal digits; fail when the text starts with a non-digit. -/
def scanHex2 (c1 c2 : Char) : Except Unit Nat :=
  if isHexDigitChar c1 then
    if isHexDigitChar c2 then .ok (hexCharVal c1 * 16 + hexCharVal c2)
    else .ok (hexCharVal c1)
  else .error ()

/-- `GenerateTenantMAC` (multibridge.go lines 271-289) with the three
random device bytes passed explicitly (the Go code draws them from
`crypto/rand`): `02:<bridge %02X>:4B:<d0>:<d1>:<d2>` as a character
list. -/
def GenerateTenantMAC (bridgeCount : Nat) (workspaceID : WID)
    (d0 d1 d2 : Nat) : List Char :=
  let bridgeNumber := GetBridgeForWorkspace bridgeCount workspaceID
  ['0', '2', ':'] ++ byteToHex bridgeNumber ++ [':', '4', 'B', ':'] ++
    byteToHex d0 ++ [':'] ++ byteToHex d1 ++ [':'] ++ byteToHex d2

/-- `GenerateSequentialTenantMAC` (multibridge.go lines 292-302):
`02:<bridge %02X>:4B:` followed by the VM index as three big-endian
bytes. -/
def GenerateSequentialTenantMAC (bridgeCount : Nat) (workspaceID : WID)
    (vmIndex : Nat) : List Char :=
  let bridgeNumber := GetBridgeForWorkspace bridgeCount workspaceID
  ['0', '2', ':'] ++ byteToHex bridgeNumber ++ [':', '4', 'B', ':'] ++
    byteToHex (vmIndex / 65536 % 256) ++ [':'] ++
    byteToHex (vmIndex / 256 % 256) ++ [':'] ++ byteToHex (vmIndex % 256)

/-- `ParseTenantFromMAC` (multibridge.go lines 305-323): require length
17, prefix byte `02`, third byte `4B`, then scan the second byte (the
bridge index) as `%02X`. -/
def ParseTenantFromMAC (macAddr : List Char) : Except Unit Nat :=
  if macAddr.length ≠ 17 then .error ()
  else if macAddr.take 2 ≠ ['0', '2'] then .error ()
  else if (macAddr.drop 6).take 2 ≠ ['4', 'B'] then .error ()
  else
    match macAddr.drop 3 with
    | c1 :: c2 :: _ => scanHex2 c1 c2
    | _ => .error ()

example : fnv1a32 [119, 115, 95, 65] % 8 = 3 := by decide

example : GetBridgeForWorkspace 8 [119, 115, 95, 65] = 3 := by decide

example :
    ParseTenantFromMAC (GenerateTenantMAC 8 [119, 115, 95, 65] 222 173 190) =
      .ok 3 := by rfl

/-- `MultiBridgeState` (multibridge.go lines 510-515): the serialized
state document — tenants, bridge-usage shadow, last-saved timestamp,
checksum. -/
structure MultiBridgeStateS where
  workspaces : List (WID × WorkspaceAllocation)
  bridgeUsage : List (Int × List WID)
  lastSaved : Nat
  checksum : String
deriving Repr, DecidableEq

/-- The data portion that `calculateStateChecksum` hashes: the state
with the checksum field excluded (the `stateForHashing` copy built at
multibridge.go lines 791-796). -/
structure StateContent where
  workspaces : List (WID × WorkspaceAllocation)
  bridgeUsage : List (Int × List WID)
  lastSaved : Nat
deriving Repr, DecidableEq

/-- `calculateStateChecksum` (multibridge.go lines 789-807): SHA-256 of
the JSON marshaling of the state without its checksum field.  The
composition `hex ∘ sha256 ∘ json.Marshal` is Go standard-library code,
so it is abstracted as the function argument `hash`; every theorem
below holds for an arbitrary deterministic `hash`. -/
def calculateStateChecksum (hash : StateContent → String)
    (state : MultiBridgeStateS) : String :=
  hash { workspaces := state.workspaces, bridgeUsage := state.bridgeUsage,
         lastSaved := state.lastSaved }

/-- `saveState` (multibridge.go lines 518-585), data portion: build the
document with the zero-valued checksum, compute the checksum of the
content, store it in the document (the temp-file + atomic-rename write
itself is I/O and not modelled). -/
def saveState (hash : StateContent → String)
    (workspaces : List (WID × WorkspaceAllocation))
    (bridgeUsage : List (Int × List WID)) (now : Nat) : MultiBridgeStateS :=
  let state : MultiBridgeStateS :=
    { workspaces := workspaces, bridgeUsage := bridgeUsage,
      lastSaved := now, checksum := "" }
  { state with checksum := calculateStateChecksum hash state }

/-- `verifyStateChecksum` (multibridge.go lines 810-841): an empty
checksum is tolerated (legacy files); otherwise the stored checksum
must equal the recomputed one. -/
def verifyStateChecksum (hash : StateContent → String)
    (state : MultiBridgeStateS) : Except Unit Unit :=
  if state.checksum = "" then .ok ()
  else if state.checksum = calculateStateChecksum hash state then .ok ()
  else .error ()

/-- Failure outcomes of `loadState` (multibridge.go lines 588-634). -/
inductive LoadError where
  | checksumMismatch
  | corruptState
deriving Repr, DecidableEq

/-- `loadState` (multibridge.go lines 588-634) on the decoded file
content: a missing file is a fresh start (empty maps, no error); a
present file must pass checksum verification and then the semantic
validation `validateState` (passed as the parameter `validateF`; its
body is exercised separately by the repair theorems and does not
affect the checksum gate). -/
def loadState (hash : StateContent → String)
    (validateF : MultiBridgeStateS → Except Unit Unit)
    (file : Option MultiBridgeStateS) :
    Except LoadError (List (WID × WorkspaceAllocation) × List (Int × List WID)) :=
  match file with
  | none => .ok ([], [])
  | some state =>
    match verifyStateChecksum hash state with
    | .error _ => .error .checksumMismatch
    | .ok _ =>
      match validateF state with
      | .error _ => .error .corruptState
      | .ok _ => .ok (state.workspaces, state.bridgeUsage)

/-- The two in-place repairs applied to a kept workspace inside the
`validateAndRepairState` loop (multibridge.go lines 978-1001): reset
`VMCount > 5` to 0, then rewrite a non-canonical bridge name. -/
def repairAllocation (pfx : String) (allocation : WorkspaceAllocation) :
    WorkspaceAllocation :=
  let a1 :=
    if allocation.vmCount > 5 then { allocation with vmCount := 0 }
    else allocation
  let expectedName := pfx ++ "-" ++ toString allocation.bridgeNumber
  if a1.bridgeName ≠ expectedName then { a1 with bridgeName := expectedName }
  else a1

/-- First loop of `validateAndRepairState` (multibridge.go lines
962-1008): per workspace, delete it when the bridge index is out of
range, apply `repairAllocation`, and mark the workspace in the
bridge-usage map.  Returns the surviving workspaces, the updated usage
map, and the repaired flag. -/
def repairWorkspacesPass (bridgeCount : Nat) (pfx : String) :
    List (WID × WorkspaceAllocation) → List (Int × List WID) →
    List (WID × WorkspaceAllocation) × List (Int × List WID) × Bool
  | [], bu => ([], bu, false)
  | (workspaceID, allocation) :: rest, bu =>
    if allocation.bridgeNumber < 0 ∨ allocation.bridgeNumber ≥ (bridgeCount : Int) then
      let r := repairWorkspacesPass bridgeCount pfx rest bu
      (r.1, r.2.1, true)
    else
      let countFixed : Bool := allocation.vmCount > 5
      let expectedName := pfx ++ "-" ++ toString allocation.bridgeNumber
      -- the VMCount reset does not touch the name, so the name check of
      -- the source is equivalently a check on the original allocation
      let nameFixed : Bool := allocation.bridgeName ≠ expectedName
      let bu1 := addUsage bu allocation.bridgeNumber workspaceID
      let r := repairWorkspacesPass bridgeCount pfx rest bu1
      ((workspaceID, repairAllocation pfx allocation) :: r.1, r.2.1,
        countFixed || nameFixed || r.2.2)

/-- Second loop of `validateAndRepairState` (multibridge.go lines
1011-1026): remove usage entries whose workspace no longer exists, and
drop bridges whose usage set became empty. -/
def pruneUsagePass (ws : List (WID × WorkspaceAllocation)) :
    List (Int × List WID) → List (Int × List WID) × Bool
  | [] => ([], false)
  | (bn, ids) :: rest =>
    let ids' := ids.filter (fun w => (lookupW ws w).isSome)
    let r := pruneUsagePass ws rest
    let removedAny : Bool := ids'.length ≠ ids.length
    if ids'.length = 0 then (r.1, removedAny || r.2)
    else ((bn, ids') :: r.1, removedAny || r.2)

/-- `validateAndRepairState` (multibridge.go lines 958-1046): both
repair passes composed.  (The best-effort `saveState` of the repaired
state at lines 1029-1043 only logs; the in-memory result returned here
is what the spec's invariants quantify over.) -/
def validateAndRepairState (bridgeCount : Nat) (pfx : String)
    (workspaces : List (WID × WorkspaceAllocation))
    (bridgeUsage : List (Int × List WID)) :
    List (WID × WorkspaceAllocation) × List (Int × List WID) × Bool :=
  let r1 := repairWorkspacesPass bridgeCount pfx workspaces bridgeUsage
  let r2 := pruneUsagePass r1.1 r1.2.1
  (r1.1, r2.1, r1.2.2 || r2.2)

/-- `Route` (unnamed part_008 lines 30-34). -/
structure Route where
  destination : Option CIDR
  gateway : Option IPv4
  metric : Int
deriving Repr, DecidableEq

/-- `VMNetwork` (unnamed part_008 lines 10-27), restricted to the fields
the kernel-argument composer reads.  `netmask` is the raw byte slice of
the Go `net.IPMask` (`none` models a nil mask). -/
structure VMNetwork where
  vmID : String
  ipAddress : Option IPv4
  netmask : Option (List Nat)
  dnsServers : List String
  vlanID : Int
  ipv6Address : Option String
  routes : List Route
deriving Repr, DecidableEq

namespace VMNetwork

/-- `calculateVethHostIP` method of `VMNetwork` (unnamed part_008 lines
140-161): the host veth IP is computed as the guest IP with the last
octet decremented by one (byte arithmetic, so wrapping modulo 256);
empty string for a missing address. -/
def calculateVethHostIP (n : VMNetwork) : String :=
  match n.ipAddress with
  | none => ""
  | some ip => ipToString { ip with d := (ip.d + 255) % 256 }

/-- `formatNetmask` (unnamed part_008 lines 164-196): nil mask defaults
to `255.255.255.0`; a 4-byte mask renders directly; a 16-byte mask
renders its last four bytes; other lengths fall through to the default
(the intermediate `net.IP` stringification branch only applies to
malformed masks that never occur). -/
def formatNetmask (n : VMNetwork) : String :=
  match n.netmask with
  | none => "255.255.255.0"
  | some m =>
    if h4 : m.length = 4 then
      toString (m.get ⟨0, by omega⟩) ++ "." ++ toString (m.get ⟨1, by omega⟩) ++
        "." ++ toString (m.get ⟨2, by omega⟩) ++ "." ++ toString (m.get ⟨3, by omega⟩)
    else if h16 : m.length = 16 then
      toString (m.get ⟨12, by omega⟩) ++ "." ++ toString (m.get ⟨13, by omega⟩) ++
        "." ++ toString (m.get ⟨14, by omega⟩) ++ "." ++ toString (m.get ⟨15, by omega⟩)
    else "255.255.255.0"

/-- `KernelCmdlineArgs` (unnamed part_008 lines 113-136): the
Firecracker `ip=G::T:GM:GI:off` token with T the veth host IP computed
by `calculateVethHostIP` above and GI fixed to `eth0`; empty when no IP
is assigned. -/
def KernelCmdlineArgs (n : VMNetwork) : String :=
  match n.ipAddress with
  | none => ""
  | some ip =>
    "ip=" ++ ipToString ip ++ "::" ++ calculateVethHostIP n ++ ":" ++
      formatNetmask n ++ ":" ++ "eth0" ++ ":off"

end VMNetwork

/-- `calculateVMSubnet` (vm_device_setup.go lines 145-150): the /29
subnet of a VM IP, base = `(lastOctet / 8) * 8`. -/
def calculateVMSubnet (ip : IPv4) : String :=
  toString ip.a ++ "." ++ toString ip.b ++ "." ++ toString ip.c ++ "." ++
    toString (ip.d / 8 * 8) ++ "/29"

/-- Package-level `calculateVethHostIP` (vm_device_setup.go lines
152-160), the function `setupVMNetworking` uses to pick the IP it
installs on the host-side veth: the first usable address of the VM's
/29, i.e. base + 1 with base = `(lastOctet / 8) * 8`. -/
def calculateVethHostIP (vmIP : IPv4) : String :=
  ipToString { vmIP with d := vmIP.d / 8 * 8 + 1 }

/-- Route tokens of `buildNetworkKernelArgs` (unnamed part_000 lines
2192-2211).  The Go loop appends `route=dst,gw,metric` for every entry
with both destination and gateway set, and breaks only after appending
an entry whose index `i` satisfies `i >= 5`. -/
def routeArgsAux : Nat → List Route → List String
  | _, [] => []
  | i, r :: rest =>
    match r.destination, r.gateway with
    | some dst, some gw =>
      let tok := "route=" ++ cidrToString dst ++ "," ++ ipToString gw ++ "," ++
        toString r.metric
      if i ≥ 5 then [tok] else tok :: routeArgsAux (i + 1) rest
    | _, _ => routeArgsAux (i + 1) rest

/-- `buildNetworkKernelArgs` (unnamed part_000 lines 2166-2233): the
`ip=` token when present, primary/secondary nameservers, the route
tokens, an `ipv6=` token for a non-nil non-unspecified address, and a
`vlan=` token for a positive VLAN id. -/
def buildNetworkKernelArgs (networkInfo : Option VMNetwork) : List String :=
  match networkInfo with
  | none => []
  | some ni =>
    let ipArg := ni.KernelCmdlineArgs
    let base := if ipArg ≠ "" then [ipArg] else []
    let dns :=
      match ni.dnsServers with
      | [] => []
      | d0 :: rest =>
        ["nameserver=" ++ d0] ++
          (match rest with
           | [] => []
           | d1 :: _ => ["nameserver1=" ++ d1])
    let routes := routeArgsAux 0 ni.routes
    let ipv6 :=
      match ni.ipv6Address with
      | none => []
      | some v => if v ≠ "::" ∧ v ≠ "0.0.0.0" then ["ipv6=" ++ v] else []
    let vlan := if ni.vlanID > 0 then ["vlan=" ++ toString ni.vlanID] else []
    base ++ dns ++ routes ++ ipv6 ++ vlan

/-- Count the `route=` tokens among kernel arguments. -/
def countRouteTokens (args : List String) : Nat :=
  (args.filter (fun s => s.take 6 = "route=")).length

/-- VM lifecycle states (`metaldv1.VmState` as used by the unnamed
part_000 SDK client). -/
inductive VmState where
  | created
  | running
  | paused
  | shutdown
  | deleted
deriving Repr, DecidableEq

/-- The primitive commands the lifecycle engine can issue to the VMM
process: `machine.Start`, `machine.PauseVM`, `machine.ResumeVM`,
`machine.StopVMM`. -/
inductive VmmCmd where
  | startVMM
  | pauseVM
  | resumeVM
  | stopVMM
deriving Repr, DecidableEq

/-- The per-VM registry record (`sdkV4VM`), restricted to the state tag
and whether a live VMM handle (`vm.Machine`) is attached. -/
structure VmRec where
  state : VmState
  hasMachine : Bool
deriving Repr, DecidableEq

/-- The per-VM lifecycle operations of the SDK client (unnamed
part_000): `BootVM`, `PauseVM`, `ResumeVM`, `ShutdownVMWithOptions`
(graceful or force), `RebootVM`, `DeleteVM`. -/
inductive VmOp where
  | bootOp
  | pauseOp
  | resumeOp
  | shutdownOp (force : Bool)
  | rebootOp
  | deleteOp
deriving Repr, DecidableEq

/-- Outcome of one lifecycle step: the updated registry record (`none`
after `DeleteVM` removes it), the VMM commands issued in order, and
whether the operation returned without error. -/
structure StepOut where
  record : Option VmRec
  cmds : List VmmCmd
  ok : Bool
deriving Repr, DecidableEq

/-- `BootVM` (unnamed part_000 lines 446-674): requires the Created
state, starts the VMM (`machine.Start`), marks the record Running with
a live handle.  VMM commands are modelled on their happy path — an RPC
failure would only truncate the command list. -/
def bootStep (r : VmRec) : StepOut :=
  if r.state ≠ VmState.created then { record := some r, cmds := [], ok := false }
  else
    { record := some { state := VmState.running, hasMachine := true },
      cmds := [VmmCmd.startVMM], ok := true }

/-- `PauseVM` (unnamed part_000 lines 1530-1571): requires Running and a
machine handle, issues `PauseVM`, marks the record Paused. -/
def pauseStep (r : VmRec) : StepOut :=
  if r.state ≠ VmState.running then { record := some r, cmds := [], ok := false }
  else if ¬ r.hasMachine then { record := some r, cmds := [], ok := false }
  else
    { record := some { state := VmState.paused, hasMachine := true },
      cmds := [VmmCmd.pauseVM], ok := true }

/-- `ShutdownVMWithOptions` (unnamed part_000 lines 1457-1527): requires
Running and a machine handle; both the graceful and the force branch
issue `PauseVM` (never `StopVMM`); the record becomes Shutdown with the
firecracker process and socket preserved. -/
def shutdownStep (_force : Bool) (r : VmRec) : StepOut :=
  if r.state ≠ VmState.running then { record := some r, cmds := [], ok := false }
  else if ¬ r.hasMachine then { record := some r, cmds := [], ok := false }
  else
    { record := some { state := VmState.shutdown, hasMachine := true },
      cmds := [VmmCmd.pauseVM], ok := true }

/-- `ResumeVM` (unnamed part_000 lines 1574-1632): requires Paused or
Shutdown; when no handle is attached it reconnects to the socket
(`socketAlive`) or recreates the VMM (`recreateVMForResume`, lines
283-343: start then immediate pause); finally issues `ResumeVM` and
marks the record Running. -/
def resumeStep (socketAlive : Bool) (r : VmRec) : StepOut :=
  if r.state ≠ VmState.paused ∧ r.state ≠ VmState.shutdown then
    { record := some r, cmds := [], ok := false }
  else
    let reattach : List VmmCmd :=
      if r.hasMachine then []
      else if socketAlive then []
      else [VmmCmd.startVMM, VmmCmd.pauseVM]
    { record := some { state := VmState.running, hasMachine := true },
      cmds := reattach ++ [VmmCmd.resumeVM], ok := true }

/-- `DeleteVM` (unnamed part_000 lines 1323-1449): stops the VMM when a
handle is attached (`machine.StopVMM`, line 1346) and removes the
record from the registry; permitted from any state. -/
def deleteStep (r : VmRec) : StepOut :=
  { record := none,
    cmds := if r.hasMachine then [VmmCmd.stopVMM] else [], ok := true }

/-- `RebootVM` (unnamed part_000 lines 1635-1665): a graceful shutdown
followed by `BootVM` on the resulting record. -/
def rebootStep (r : VmRec) : StepOut :=
  let s1 := shutdownStep false r
  if ¬ s1.ok then s1
  else
    match s1.record with
    | none => s1
    | some r1 =>
      let s2 := bootStep r1
      { record := s2.record, cmds := s1.cmds ++ s2.cmds, ok := s2.ok }

/-- One step of the VM lifecycle relation: dispatch on the operation.
`socketAlive` is the environment bit consumed by the Resume
reconnection path. -/
def stepVM (socketAlive : Bool) (op : VmOp) (r : VmRec) : StepOut :=
  match op with
  | .bootOp => bootStep r
  | .pauseOp => pauseStep r
  | .resumeOp => resumeStep socketAlive r
  | .shutdownOp force => shutdownStep force r
  | .rebootOp => rebootStep r
  | .deleteOp => deleteStep r

/-! Concrete fixtures used by witnesses and counterexamples.  Workspace
id `[119, 115, 95, 65]` is the byte sequence of `"ws_A"` from the
spec's end-to-end scenario 1; `[119]` is `"w"`. -/

/-- A stored allocation with three live VMs on bridge 3 of an 8-bridge
fabric (`FNV1a32("ws_A") mod 8 = 3`). -/
def allocWs3 : WorkspaceAllocation :=
  { workspaceID := [119, 115, 95, 65], bridgeNumber := 3,
    bridgeName := "br-vms-3", projectVLANs := [], createdAt := "", vmCount := 3 }

/-- Manager state holding `allocWs3` (bridge count 8, prefix
`br-vms`). -/
def stateWs3 : MBState :=
  { bridgeCount := 8, bridgePfx := "br-vms",
    workspaces := [([119, 115, 95, 65], allocWs3)],
    bridgeUsage := [(3, [[119, 115, 95, 65]])],
    saveOk := true, persisted := none }

/-- A stored allocation whose `/29` is exhausted: `VMCount = 5`. -/
def allocFull : WorkspaceAllocation :=
  { workspaceID := [119], bridgeNumber := 2, bridgeName := "br-vms-2",
    projectVLANs := [], createdAt := "", vmCount := 5 }

/-- Manager state holding `allocFull`. -/
def stateFull : MBState :=
  { bridgeCount := 8, bridgePfx := "br-vms",
    workspaces := [([119], allocFull)],
    bridgeUsage := [(2, [[119]])],
    saveOk := true, persisted := none }

/-- A project VLAN (subnet `172.16.0.0/27`) whose `NextVMIndex` is 28 —
the index where the two `AllocateVMIP` variants disagree. -/
def vlanAt28 : ProjectVLAN :=
  { projectID := [112], vlanNumber := 100,
    subnetCIDR := { o1 := 172, o2 := 16, o3 := 0, o4 := 0, bits := 27 },
    nextVMIndex := 28, createdAt := "" }

/-- A `VMNetwork` binding for the second VM of the `/29` at base 16 on
bridge 2: guest IP `172.16.2.19/29` (spec scenario 2 allocates
`172.16.2.18` first, so `.19` is the next allocation). -/
def netSecondVM : VMNetwork :=
  { vmID := "vm-2", ipAddress := some { a := 172, b := 16, c := 2, d := 19 },
    netmask := some [255, 255, 255, 248], dnsServers := [], vlanID := 0,
    ipv6Address := none, routes := [] }

/-- A valid static route (`10.0.0.0/24` via `172.16.2.17`, metric 1). -/
def sampleRoute : Route :=
  { destination := some { o1 := 10, o2 := 0, o3 := 0, o4 := 0, bits := 24 },
    gateway := some { a := 172, b := 16, c := 2, d := 17 }, metric := 1 }

/-- A network binding carrying six valid static routes. -/
def netSixRoutes : VMNetwork :=
  { vmID := "vm-6r", ipAddress := none, netmask := none, dnsServers := [],
    vlanID := 0, ipv6Address := none,
    routes := [sampleRoute, sampleRoute, sampleRoute, sampleRoute, sampleRoute,
               sampleRoute] }

/-- A loaded fabric state needing every kind of repair: workspace
`[119]` has `VMCount = 25` (scenario 6 of the spec) and a wrong bridge
name, workspace `[120]` has an out-of-range bridge index, and the usage
map carries an orphaned entry for `[121]`. -/
def repairWorkspacesFixture : List (WID × WorkspaceAllocation) :=
  [([119],
    { workspaceID := [119], bridgeNumber := 2, bridgeName := "br-bad",
      projectVLANs := [], createdAt := "", vmCount := 25 }),
   ([120],
    { workspaceID := [120], bridgeNumber := 9, bridgeName := "br-vms-9",
      projectVLANs := [], createdAt := "", vmCount := 1 })]

/-- The bridge-usage shadow paired with `repairWorkspacesFixture`. -/
def repairUsageFixture : List (Int × List WID) :=
  [(2, [[119], [121]]), (9, [[120]])]

/-- C10: for every workspace present in the manager, `GetWorkspaceInfo`
returns a defensive copy whose `VMCount` field is 0 — the copy literal
at multibridge.go lines 220-226 omits `VMCount`, so it takes the zero
value — while the identifying fields are copied verbatim; callers can
never observe the live VM count through this query. -/
theorem c10_workspace_info_vmcount_zero (s : MBState) (w : WID)
    (a : WorkspaceAllocation) (hw : lookupW s.workspaces w = some a) :
    ∃ copy, GetWorkspaceInfo s w = .ok copy ∧ copy.vmCount = 0 ∧
      copy.workspaceID = a.workspaceID ∧ copy.bridgeNumber = a.bridgeNumber ∧
      copy.bridgeName = a.bridgeName ∧ copy.createdAt = a.createdAt := by
  simp only [GetWorkspaceInfo, hw]
  exact ⟨_, rfl, rfl, rfl, rfl, rfl, rfl⟩

/-- Witness for C10: in `stateWs3` the stored allocation has
`VMCount = 3`, yet the returned copy reports 0. -/
theorem c10_workspace_info_vmcount_zero_witness :
    lookupW stateWs3.workspaces [119, 115, 95, 65] = some allocWs3 ∧
    allocWs3.vmCount = 3 ∧
    (∃ copy, GetWorkspaceInfo stateWs3 [119, 115, 95, 65] = .ok copy ∧
      copy.vmCount = 0 ∧ copy.workspaceID = allocWs3.workspaceID ∧
      copy.bridgeNumber = allocWs3.bridgeNumber ∧
      copy.bridgeName = allocWs3.bridgeName ∧
      copy.createdAt = allocWs3.createdAt) :=
  ⟨by decide, by decide,
   c10_workspace_info_vmcount_zero stateWs3 [119, 115, 95, 65] allocWs3 (by decide)⟩

/-- C7: `ShutdownVMWithOptions` requires the Running state and, for both
the graceful and the force variant, issues exactly one `PauseVM` on the
VMM — never process termination — before marking the record Shutdown;
across the whole lifecycle step relation, `StopVMM` is issued only by
`DeleteVM`. -/
theorem c7_shutdown_pauses_stop_only_in_delete (socketAlive : Bool) (op : VmOp)
    (r : VmRec) (force : Bool) :
    (VmmCmd.stopVMM ∈ (stepVM socketAlive op r).cmds → op = VmOp.deleteOp) ∧
    ((stepVM socketAlive (VmOp.shutdownOp force) r).ok = true →
      r.state = VmState.running ∧ r.hasMachine = true ∧
      (stepVM socketAlive (VmOp.shutdownOp force) r).cmds = [VmmCmd.pauseVM] ∧
      (stepVM socketAlive (VmOp.shutdownOp force) r).record =
        some { state := VmState.shutdown, hasMachine := true }) := by
  obtain ⟨st, hm⟩ := r
  constructor
  · cases op <;> cases st <;> cases hm <;> cases socketAlive <;>
      first
      | decide
      | (rename_i f; cases f <;> decide)
  · cases st <;> cases hm <;> cases force <;> cases socketAlive <;> decide

/-- Witness for C7: force shutdown of a running VM with a live handle
succeeds, pausing (not stopping) the VMM. -/
theorem c7_shutdown_pauses_stop_only_in_delete_witness :
    (stepVM true (VmOp.shutdownOp true)
      { state := VmState.running, hasMachine := true }).ok = true ∧
    (({ state := VmState.running, hasMachine := true } : VmRec).state =
        VmState.running ∧
      ({ state := VmState.running, hasMachine := true } : VmRec).hasMachine = true ∧
      (stepVM true (VmOp.shutdownOp true)
        { state := VmState.running, hasMachine := true }).cmds = [VmmCmd.pauseVM] ∧
      (stepVM true (VmOp.shutdownOp true)
        { state := VmState.running, hasMachine := true }).record =
        some { state := VmState.shutdown, hasMachine := true }) :=
  ⟨by decide,
   (c7_shutdown_pauses_stop_only_in_delete true (VmOp.shutdownOp true)
     { state := VmState.running, hasMachine := true } true).2 (by decide)⟩

set_option maxRecDepth 8192 in
/-- C6: the claim asserts that the `T` entry of the guest `ip=` token
(`VMNetwork.KernelCmdlineArgs`, computed as guest IP − 1) always equals
the gateway IP installed on the host veth during device setup
(`calculateVethHostIP` in vm_device_setup.go, computed as /29 base + 1).
For the second VM of a /29 — guest `172.16.2.19` — the kernel token
names `172.16.2.18` while the host veth carries `172.16.2.17`; the two
computations agree exactly when the guest's offset in its /29 is 2. -/
theorem c6_veth_host_ip_divergence :
    VMNetwork.KernelCmdlineArgs netSecondVM =
      "ip=172.16.2.19::172.16.2.18:255.255.255.248:eth0:off" ∧
    VMNetwork.calculateVethHostIP netSecondVM = "172.16.2.18" ∧
    calculateVethHostIP { a := 172, b := 16, c := 2, d := 19 } = "172.16.2.17" ∧
    VMNetwork.calculateVethHostIP netSecondVM ≠
      calculateVethHostIP { a := 172, b := 16, c := 2, d := 19 } ∧
    (∀ d : Fin 256,
      (VMNetwork.calculateVethHostIP
          { netSecondVM with ipAddress := some { a := 172, b := 16, c := 2, d := d.val } } =
        calculateVethHostIP { a := 172, b := 16, c := 2, d := d.val }) ↔
        d.val % 8 = 2) := by
  refine ⟨by rfl, by rfl, by rfl, by decide, by decide⟩

/-- C8: the claim asserts at most five `route=` tokens are emitted; the
loop in `buildNetworkKernelArgs` breaks only after appending the entry
at index 5, so six valid routes produce six tokens. -/
theorem c8_six_route_tokens :
    buildNetworkKernelArgs (some netSixRoutes) =
      List.replicate 6 "route=10.0.0.0/24,172.16.2.17,1" ∧
    countRouteTokens (buildNetworkKernelArgs (some netSixRoutes)) = 6 ∧
    ¬ countRouteTokens (buildNetworkKernelArgs (some netSixRoutes)) ≤ 5 := by
  refine ⟨by rfl, by rfl, by decide⟩

/-- C4: every state document produced by `saveState` carries in its
checksum field the hash of the document's data portion (the JSON
content with the checksum excluded), so a file produced by `saveState`
always passes `verifyStateChecksum`; a missing file is a fresh start,
and any file whose checksum is non-empty and differs from the hash of
its data portion makes `loadState` fail with a checksum error — for an
arbitrary deterministic hash function in place of the Go
standard-library `hex ∘ SHA-256 ∘ json.Marshal` composition. -/
theorem c4_checksum_roundtrip (hash : StateContent → String)
    (validateF : MultiBridgeStateS → Except Unit Unit)
    (workspaces : List (WID × WorkspaceAllocation))
    (bridgeUsage : List (Int × List WID)) (now : Nat) :
    (saveState hash workspaces bridgeUsage now).checksum =
      hash { workspaces := workspaces, bridgeUsage := bridgeUsage,
             lastSaved := now } ∧
    verifyStateChecksum hash (saveState hash workspaces bridgeUsage now) =
      .ok () ∧
    loadState hash validateF none = .ok ([], []) ∧
    (∀ st : MultiBridgeStateS, st.checksum ≠ "" →
      st.checksum ≠ calculateStateChecksum hash st →
      loadState hash validateF (some st) = .error .checksumMismatch) := by
  refine ⟨rfl, ?_, rfl, ?_⟩
  · unfold verifyStateChecksum saveState calculateStateChecksum
    split
    · rfl
    · simp
  · intro st h1 h2
    simp only [loadState, verifyStateChecksum, if_neg h1, if_neg h2]

/-- Witness for C4: a concrete hash function, a trivially accepting
validator, an empty fabric, and a file whose stored checksum disagrees
with the recomputed one. -/
theorem c4_checksum_roundtrip_witness :
    ((saveState (fun _ => "h0") [] [] 0).checksum =
      (fun (_ : StateContent) => "h0")
        { workspaces := [], bridgeUsage := [], lastSaved := 0 } ∧
    verifyStateChecksum (fun _ => "h0") (saveState (fun _ => "h0") [] [] 0) =
      .ok () ∧
    loadState (fun _ => "h0") (fun _ => .ok ()) none = .ok ([], []) ∧
    (∀ st : MultiBridgeStateS, st.checksum ≠ "" →
      st.checksum ≠ calculateStateChecksum (fun _ => "h0") st →
      loadState (fun _ => "h0") (fun _ => .ok ()) (some st) =
        .error .checksumMismatch)) ∧
    loadState (fun _ => "h0") (fun _ => .ok ())
      (some { workspaces := [], bridgeUsage := [], lastSaved := 0,
              checksum := "bad" }) = .error .checksumMismatch :=
  have main := c4_checksum_roundtrip (fun _ => "h0") (fun _ => .ok ()) [] [] 0
  ⟨main,
   main.2.2.2 { workspaces := [], bridgeUsage := [], lastSaved := 0,
                checksum := "bad" } (by decide) (by decide)⟩

set_option maxRecDepth 8192 in
/-- Reading back two uppercase hexadecimal digits recovers any byte
value: `fmt.Sscanf` with `%02X` inverts `fmt.Sprintf`'s `%02X`. -/
theorem scanHex2_byteToHex (b : Nat) (hb : b < 256) :
    scanHex2 (hexDigit (b / 16 % 16)) (hexDigit (b % 16)) = .ok b := by
  revert hb
  revert b
  decide

/-- C3: with at most 256 configured bridges — so the bridge index
renders as exactly two hex digits — parsing a generated tenant MAC
recovers the workspace's hashed bridge index, whatever the three
random device bytes were: the MAC is `02:<bridge_hex>:4B:<3 random
bytes>` and `ParseTenantFromMAC ∘ GenerateTenantMAC` equals
`GetBridgeForWorkspace`. -/
theorem c3_mac_roundtrip (bridgeCount : Nat) (w : WID) (d0 d1 d2 : Nat)
    (hbc0 : 0 < bridgeCount) (hbc : bridgeCount ≤ 256)
    (_h0 : d0 < 256) (_h1 : d1 < 256) (_h2 : d2 < 256) :
    ParseTenantFromMAC (GenerateTenantMAC bridgeCount w d0 d1 d2) =
      .ok (GetBridgeForWorkspace bridgeCount w) := by
  have hb : GetBridgeForWorkspace bridgeCount w < 256 :=
    lt_of_lt_of_le (Nat.mod_lt _ hbc0) hbc
  simp only [GenerateTenantMAC, byteToHex, List.append_assoc, List.cons_append,
    List.nil_append, ParseTenantFromMAC, List.length_cons, List.take,
    List.drop]
  norm_num
  exact scanHex2_byteToHex _ hb

/-- Witness for C3: workspace `"ws_A"` with 8 bridges hashes to bridge
3, and the MAC `02:03:4B:DE:AD:BE` parses back to 3. -/
theorem c3_mac_roundtrip_witness :
    0 < 8 ∧ 8 ≤ 256 ∧ 222 < 256 ∧ 173 < 256 ∧ 190 < 256 ∧
    ParseTenantFromMAC (GenerateTenantMAC 8 [119, 115, 95, 65] 222 173 190) =
      .ok (GetBridgeForWorkspace 8 [119, 115, 95, 65]) :=
  ⟨by decide, by decide, by decide, by decide, by decide,
   c3_mac_roundtrip 8 [119, 115, 95, 65] 222 173 190 (by decide) (by decide)
     (by decide) (by decide) (by decide)⟩

/-- Counterexample for C9: at `NextVMIndex = 28` the multibridge.go
variant accepts (`2 + 28 = 30` is not `> 30`) and returns offset 30,
while the part_007 variant rejects (`28 + 2 >= 30`), so the two
embeddings are not extensionally equal. -/
theorem c9_allocate_vmip_counterexample :
    Multibridge.AllocateVMIP vlanAt28 =
      .ok ({ a := 172, b := 16, c := 0, d := 30 },
           { vlanAt28 with nextVMIndex := 29 }) ∧
    Unnamed007.AllocateVMIP true vlanAt28 = .error .vlanFull ∧
    Multibridge.AllocateVMIP vlanAt28 ≠ Unnamed007.AllocateVMIP true vlanAt28 := by
  refine ⟨by decide, by decide, by decide⟩

/-- C9 (amended): on every project VLAN whose subnet is a well-formed
/27 and whose `NextVMIndex` is non-negative and different from 28, the
two `AllocateVMIP` embeddings return the same IP and updated index or
fail together (taking the part_007 persistence to succeed); index 28 is
the single point of disagreement. -/
theorem c9_allocate_vmip_agree_except_28 (vlan : ProjectVLAN)
    (hbits : vlan.subnetCIDR.bits = 27) (ho4 : vlan.subnetCIDR.o4 < 256)
    (hn0 : 0 ≤ vlan.nextVMIndex) (hn : vlan.nextVMIndex ≠ 28) :
    Multibridge.AllocateVMIP vlan = Unnamed007.AllocateVMIP true vlan := by
  obtain ⟨pid, vn, c, n, ca⟩ := vlan
  obtain ⟨o1, o2, o3, o4, bits⟩ := c
  simp only at hbits ho4 hn0 hn
  subst hbits
  by_cases hge : n ≥ 29
  · have hA : (2 + n > 30) := by omega
    have hB : (n + 2 ≥ 30) := by omega
    simp only [Multibridge.AllocateVMIP, Unnamed007.AllocateVMIP,
      if_pos hA, if_pos hB]
  · have hA : ¬ (2 + n > 30) := by omega
    have hB : ¬ (n + 2 ≥ 30) := by omega
    have ht : intToByte (2 + n) = intToByte (n + 2) := by
      simp [intToByte, Int.add_comm]
    have htv : intToByte (n + 2) = (n + 2).toNat := by
      simp only [intToByte]
      rw [Int.emod_eq_of_lt (by omega) (by omega)]
    have hcontains :
        cidrContains { o1 := o1, o2 := o2, o3 := o3, o4 := o4, bits := 27 }
          { a := o1, b := o2, c := o3,
            d := (cidrBase { o1 := o1, o2 := o2, o3 := o3, o4 := o4, bits := 27 } +
              intToByte (2 + n)) % 256 } = true := by
      have hhost : hostSize 27 = 32 := by norm_num [hostSize]
      simp only [cidrContains, cidrBase, hhost, ht, htv, Bool.and_eq_true,
        decide_eq_true_eq, and_true, true_and, eq_self_iff_true]
      omega
    simp only [Multibridge.AllocateVMIP, Unnamed007.AllocateVMIP,
      if_neg hA, if_neg hB, hcontains]
    simp [ht]

/-- A successful `validateBridgeAllocation` implies the allocation's VM
count is strictly below the /29 capacity of 5 — the reason the later
"subnet is full" check in `AllocateIPForWorkspace` can never fire. -/
theorem validateBridgeAllocation_ok_vmCount {bc : Nat} {pfx : String}
    {a : WorkspaceAllocation} {u : Unit}
    (h : validateBridgeAllocation bc pfx a = .ok u) : a.vmCount < 5 := by
  unfold validateBridgeAllocation at h
  split at h
  · cases h
  split at h
  · cases h
  split at h
  · cases h
  split at h
  · cases h
  · omega

/-- The `workspace /29 subnet is full` error site of
`AllocateIPForWorkspace` (multibridge.go line 417) is unreachable:
`validateBridgeAllocation` already rejected any `VMCount ≥ 5`. -/
theorem allocateIP_never_subnetFull (s : MBState) (w : WID) :
    (AllocateIPForWorkspace s w).1 ≠ .error AllocError.subnetFull := by
  unfold AllocateIPForWorkspace
  dsimp only
  split
  · simp
  next u hok =>
    split
    · simp
    split
    next hge =>
      exact absurd (validateBridgeAllocation_ok_vmCount hok) (by omega)
    split
    · simp
    split
    · simp
    split
    · simp
    split <;> simp

/-- C1: a successful `AllocateIPForWorkspace` call on a workspace whose
stored allocation is the manager-created one (bridge index
`FNV1a32(w) mod bridgeCount`, canonical name) with `VMCount = k`,
`0 ≤ k < 5`, returns the IP `172.16.b.(s*8 + 2 + k)` with
`b = GetBridgeForWorkspace` and `s = FNV1a32(w) mod 32`; the last octet
lies in `{base+2, …, base+6}` of its /29 with `base = (last/8)*8 = s*8`,
the device-setup gateway for that IP is `base + 1`, and the VM subnet
is the /29 at `base`. -/
theorem c1_allocate_ip_formula (s : MBState) (w : WID) (k : Nat)
    (a : WorkspaceAllocation)
    (hbc0 : 0 < s.bridgeCount) (hbc : s.bridgeCount ≤ 256)
    (hw : lookupW s.workspaces w = some a)
    (hbr : a.bridgeNumber = (GetBridgeForWorkspace s.bridgeCount w : Int))
    (hname : a.bridgeName = s.bridgePfx ++ "-" ++ toString a.bridgeNumber)
    (hwid : a.workspaceID ≠ [])
    (hk : a.vmCount = (k : Int)) (hk5 : k < 5)
    (hsave : s.saveOk = true) :
    (AllocateIPForWorkspace s w).1 =
      .ok ({ a := 172, b := 16, c := GetBridgeForWorkspace s.bridgeCount w,
             d := (fnv1a32 w % 32) * 8 + 2 + k }, a.bridgeName) ∧
    ((fnv1a32 w % 32) * 8 + 2 + k) / 8 * 8 = (fnv1a32 w % 32) * 8 ∧
    ((fnv1a32 w % 32) * 8 + 2 + k) / 8 * 8 + 2 ≤ (fnv1a32 w % 32) * 8 + 2 + k ∧
    (fnv1a32 w % 32) * 8 + 2 + k ≤ ((fnv1a32 w % 32) * 8 + 2 + k) / 8 * 8 + 6 ∧
    calculateVMSubnet
        { a := 172, b := 16, c := GetBridgeForWorkspace s.bridgeCount w,
          d := (fnv1a32 w % 32) * 8 + 2 + k } =
      ipToString { a := 172, b := 16, c := GetBridgeForWorkspace s.bridgeCount w,
                   d := (fnv1a32 w % 32) * 8 } ++ "/29" ∧
    calculateVethHostIP
        { a := 172, b := 16, c := GetBridgeForWorkspace s.bridgeCount w,
          d := (fnv1a32 w % 32) * 8 + 2 + k } =
      ipToString { a := 172, b := 16, c := GetBridgeForWorkspace s.bridgeCount w,
                   d := (fnv1a32 w % 32) * 8 + 1 } := by
  have hBlt : GetBridgeForWorkspace s.bridgeCount w < s.bridgeCount :=
    Nat.mod_lt _ hbc0
  have hS : fnv1a32 w % 32 < 32 := Nat.mod_lt _ (by norm_num)
  have c4 : ¬ (a.vmCount ≥ 5) := by rw [hk]; omega
  have hval : validateBridgeAllocation s.bridgeCount s.bridgePfx a = .ok () := by
    have c1 : ¬ (a.bridgeNumber < 0 ∨ a.bridgeNumber ≥ (s.bridgeCount : Int)) := by
      rw [hbr]; omega
    have c3 : ¬ (a.vmCount < 0) := by rw [hk]; omega
    unfold validateBridgeAllocation
    rw [if_neg c1, if_neg hwid, if_neg c3, if_neg c4,
      if_neg (not_not_intro hname)]
  have h255 : ¬ (a.bridgeNumber > 255) := by rw [hbr]; omega
  have hvmip : validateVMIPAllocation (((fnv1a32 w % 32) * 8 : Nat) : Int)
      ((((fnv1a32 w % 32) * 8 : Nat) : Int) + 2 + a.vmCount) a.vmCount =
      .ok () := by
    unfold validateVMIPAllocation
    rw [hk]
    rw [if_neg (by omega), if_neg (by omega), if_neg (by omega),
      if_neg (by omega), if_neg (by omega)]
  have hbyte : (0 + intToByte ((((fnv1a32 w % 32) * 8 : Nat) : Int) + 2 +
      a.vmCount)) % 256 = (fnv1a32 w % 32) * 8 + 2 + k := by
    rw [hk]; unfold intToByte; omega
  have htn : a.bridgeNumber.toNat = GetBridgeForWorkspace s.bridgeCount w := by
    rw [hbr]; omega
  have hc24 : cidrContains
      { o1 := 172, o2 := 16, o3 := GetBridgeForWorkspace s.bridgeCount w,
        o4 := 0, bits := 24 }
      { a := 172, b := 16, c := GetBridgeForWorkspace s.bridgeCount w,
        d := (fnv1a32 w % 32) * 8 + 2 + k } = true := by
    have hhost : hostSize 24 = 256 := by norm_num [hostSize]
    simp only [cidrContains, cidrBase, hhost, Bool.and_eq_true,
      decide_eq_true_eq, and_true, true_and, eq_self_iff_true]
    omega
  have hin29 : validateIPWithinWorkspaceSubnet
      { a := 172, b := 16, c := GetBridgeForWorkspace s.bridgeCount w,
        d := (fnv1a32 w % 32) * 8 + 2 + k }
      a.bridgeNumber (((fnv1a32 w % 32) * 8 : Nat) : Int) = .ok () := by
    unfold validateIPWithinWorkspaceSubnet
    rw [if_neg (by rw [hbr]; omega)]
    have hhost : hostSize 29 = 8 := by norm_num [hostSize]
    have htn2 : ((((fnv1a32 w % 32) * 8 : Nat) : Int)).toNat =
        (fnv1a32 w % 32) * 8 := by omega
    have hc29 : cidrContains
        { o1 := 172, o2 := 16, o3 := a.bridgeNumber.toNat,
          o4 := ((((fnv1a32 w % 32) * 8 : Nat) : Int)).toNat, bits := 29 }
        { a := 172, b := 16, c := GetBridgeForWorkspace s.bridgeCount w,
          d := (fnv1a32 w % 32) * 8 + 2 + k } = true := by
      simp only [cidrContains, cidrBase, hhost, htn, htn2, Bool.and_eq_true,
        decide_eq_true_eq, and_true, true_and, eq_self_iff_true]
      omega
    rw [if_neg (not_not_intro hc29)]
    rw [if_neg (by simp only [cidrBase, hhost, htn2]; omega)]
  have hrun : (AllocateIPForWorkspace s w).1 =
      .ok ({ a := 172, b := 16, c := GetBridgeForWorkspace s.bridgeCount w,
             d := (fnv1a32 w % 32) * 8 + 2 + k }, a.bridgeName) := by
    unfold AllocateIPForWorkspace
    dsimp only
    rw [hw]
    dsimp only
    rw [hval]
    dsimp only
    rw [if_neg h255, if_neg c4, hvmip]
    dsimp only
    rw [hbyte, htn]
    rw [if_neg (not_not_intro hc24)]
    rw [hin29]
    dsimp only
    rw [if_pos hsave]
  refine ⟨hrun, by omega, by omega, by omega, ?_, ?_⟩
  · dsimp only [calculateVMSubnet, ipToString]
    rw [show ((fnv1a32 w % 32) * 8 + 2 + k) / 8 * 8 = (fnv1a32 w % 32) * 8
      from by omega]
  · dsimp only [calculateVethHostIP, ipToString]
    rw [show ((fnv1a32 w % 32) * 8 + 2 + k) / 8 * 8 + 1 =
      (fnv1a32 w % 32) * 8 + 1 from by omega]

/-- Witness for C1: allocating for workspace `"ws_A"` (bridge 3 of 8,
/29 slot `FNV1a32("ws_A") mod 32`) with three VMs already allocated
returns the fourth usable address of the workspace's /29. -/
theorem c1_allocate_ip_formula_witness :
    0 < stateWs3.bridgeCount ∧ stateWs3.bridgeCount ≤ 256 ∧
    lookupW stateWs3.workspaces [119, 115, 95, 65] = some allocWs3 ∧
    allocWs3.bridgeNumber =
      (GetBridgeForWorkspace stateWs3.bridgeCount [119, 115, 95, 65] : Int) ∧
    allocWs3.vmCount = ((3 : Nat) : Int) ∧
    (AllocateIPForWorkspace stateWs3 [119, 115, 95, 65]).1 =
      .ok ({ a := 172, b := 16,
             c := GetBridgeForWorkspace stateWs3.bridgeCount [119, 115, 95, 65],
             d := (fnv1a32 [119, 115, 95, 65] % 32) * 8 + 2 + 3 },
           allocWs3.bridgeName) :=
  ⟨by decide, by decide, by decide, by decide, by decide,
   (c1_allocate_ip_formula stateWs3 [119, 115, 95, 65] 3 allocWs3
     (by decide) (by decide) (by decide) (by decide) (by decide) (by decide)
     (by decide) (by decide) (by decide)).1⟩

/-- Counterexample for C2: on a workspace whose stored `VMCount` is 5,
`AllocateIPForWorkspace` does fail and leaves the state unchanged, but
the error is the bridge-allocation validation error (`VM count 5
exceeds workspace /29 capacity`), not the structured `tenant subnet
full` error the claim names — that error site is dead code. -/
theorem c2_subnet_full_error_counterexample :
    (AllocateIPForWorkspace stateFull [119]).1 =
      .error (AllocError.bridgeValidationFailed .capacityExceeded) ∧
    (AllocateIPForWorkspace stateFull [119]).1 ≠
      .error AllocError.subnetFull ∧
    (AllocateIPForWorkspace stateFull [119]).2 = stateFull := by
  refine ⟨by decide, by decide, by decide⟩

/-- C2 (amended): for every workspace whose stored `VMCount` equals 5,
`AllocateIPForWorkspace` fails with the bridge-allocation validation
error — specifically `capacityExceeded` whenever the rest of the stored
record is well-formed — and leaves the manager state (including the
persisted fabric snapshot) unchanged; the `workspace /29 subnet is
full` error named by the claim is never returned by any call. -/
theorem c2_vmcount5_allocation_fails (s : MBState) (w : WID)
    (a : WorkspaceAllocation) (hw : lookupW s.workspaces w = some a)
    (h5 : a.vmCount = 5) :
    (∃ e, (AllocateIPForWorkspace s w).1 =
        .error (AllocError.bridgeValidationFailed e)) ∧
    (AllocateIPForWorkspace s w).2 = s ∧
    (0 ≤ a.bridgeNumber → a.bridgeNumber < (s.bridgeCount : Int) →
      a.workspaceID ≠ [] →
      a.bridgeName = s.bridgePfx ++ "-" ++ toString a.bridgeNumber →
      (AllocateIPForWorkspace s w).1 =
        .error (AllocError.bridgeValidationFailed .capacityExceeded)) ∧
    (AllocateIPForWorkspace s w).1 ≠ .error AllocError.subnetFull := by
  have hvalE : ∃ e, validateBridgeAllocation s.bridgeCount s.bridgePfx a =
      .error e := by
    unfold validateBridgeAllocation
    split
    · exact ⟨_, rfl⟩
    split
    · exact ⟨_, rfl⟩
    split
    · exact ⟨_, rfl⟩
    split
    · exact ⟨_, rfl⟩
    · exact absurd h5 (by omega)
  obtain ⟨e, he⟩ := hvalE
  have hfn : AllocateIPForWorkspace s w =
      (.error (AllocError.bridgeValidationFailed e), s) := by
    unfold AllocateIPForWorkspace
    dsimp only
    simp only [hw, he]
  refine ⟨⟨e, by rw [hfn]⟩, by rw [hfn], ?_, allocateIP_never_subnetFull s w⟩
  intro hb0 hblt hwid hname
  have he2 : validateBridgeAllocation s.bridgeCount s.bridgePfx a =
      .error .capacityExceeded := by
    unfold validateBridgeAllocation
    rw [if_neg (by omega), if_neg hwid, if_neg (by omega), if_pos (by omega)]
  have hee := he.symm.trans he2
  cases hee
  rw [hfn]

/-- Witness for C2 (amended): the exhausted workspace of `stateFull`. -/
theorem c2_vmcount5_allocation_fails_witness :
    lookupW stateFull.workspaces [119] = some allocFull ∧
    allocFull.vmCount = 5 ∧
    ((∃ e, (AllocateIPForWorkspace stateFull [119]).1 =
        .error (AllocError.bridgeValidationFailed e)) ∧
      (AllocateIPForWorkspace stateFull [119]).2 = stateFull ∧
      (0 ≤ allocFull.bridgeNumber →
        allocFull.bridgeNumber < (stateFull.bridgeCount : Int) →
        allocFull.workspaceID ≠ [] →
        allocFull.bridgeName =
          stateFull.bridgePfx ++ "-" ++ toString allocFull.bridgeNumber →
        (AllocateIPForWorkspace stateFull [119]).1 =
          .error (AllocError.bridgeValidationFailed .capacityExceeded)) ∧
      (AllocateIPForWorkspace stateFull [119]).1 ≠
        .error AllocError.subnetFull) :=
  ⟨by decide, by decide,
   c2_vmcount5_allocation_fails stateFull [119] allocFull (by decide) (by decide)⟩

/-- `addUsage` registers the workspace under the bridge. -/
theorem addUsage_mem_self (bu : List (Int × List WID)) (bn : Int) (w : WID) :
    ∃ q ∈ addUsage bu bn w, w ∈ q.2 := by
  induction bu with
  | nil => exact ⟨(bn, [w]), by simp [addUsage], by simp⟩
  | cons head rest ih =>
    obtain ⟨b, ids⟩ := head
    by_cases hb : b = bn
    · refine ⟨(b, if w ∈ ids then ids else w :: ids), by simp [addUsage, hb], ?_⟩
      split <;> simp_all
    · obtain ⟨q, hq, hw⟩ := ih
      exact ⟨q, by simp [addUsage, hb, hq], hw⟩

/-- `addUsage` never removes an existing usage entry. -/
theorem addUsage_mem_mono (bu : List (Int × List WID)) (bn : Int) (w' w : WID)
    (h : ∃ q ∈ bu, w ∈ q.2) : ∃ q ∈ addUsage bu bn w', w ∈ q.2 := by
  induction bu with
  | nil => simp at h
  | cons head rest ih =>
    obtain ⟨b, ids⟩ := head
    obtain ⟨q, hq, hw⟩ := h
    rcases List.mem_cons.mp hq with hq1 | hq2
    · subst hq1
      by_cases hb : b = bn
      · refine ⟨(b, if w' ∈ ids then ids else w' :: ids),
          by simp [addUsage, hb], ?_⟩
        split <;> simp_all
      · exact ⟨(b, ids), by simp [addUsage, hb], hw⟩
    · by_cases hb : b = bn
      · exact ⟨q, by simp [addUsage, hb, hq2], hw⟩
      · obtain ⟨q', hq', hw'⟩ := ih ⟨q, hq2, hw⟩
        exact ⟨q', by simp [addUsage, hb, hq'], hw'⟩

/-- The repair loop only grows the usage map. -/
theorem repairPass_usage_mono (N : Nat) (pfx : String)
    (ws : List (WID × WorkspaceAllocation)) :
    ∀ bu w, (∃ q ∈ bu, w ∈ q.2) →
      ∃ q ∈ (repairWorkspacesPass N pfx ws bu).2.1, w ∈ q.2 := by
  induction ws with
  | nil => intro bu w h; simpa [repairWorkspacesPass] using h
  | cons head rest ih =>
    intro bu w h
    obtain ⟨id, alloc⟩ := head
    by_cases hbr : alloc.bridgeNumber < 0 ∨ alloc.bridgeNumber ≥ (N : Int)
    · simpa [repairWorkspacesPass, hbr] using ih bu w h
    · simpa [repairWorkspacesPass, hbr] using
        ih (addUsage bu alloc.bridgeNumber id) w (addUsage_mem_mono _ _ _ _ h)

/-- Every workspace surviving the repair loop is present in the usage
map the loop returns. -/
theorem repairPass_survivor_mem_usage (N : Nat) (pfx : String)
    (ws : List (WID × WorkspaceAllocation)) :
    ∀ bu w, (lookupW (repairWorkspacesPass N pfx ws bu).1 w).isSome →
      ∃ q ∈ (repairWorkspacesPass N pfx ws bu).2.1, w ∈ q.2 := by
  induction ws with
  | nil => intro bu w h; simp [repairWorkspacesPass, lookupW] at h
  | cons head rest ih =>
    intro bu w h
    obtain ⟨id, alloc⟩ := head
    by_cases hbr : alloc.bridgeNumber < 0 ∨ alloc.bridgeNumber ≥ (N : Int)
    · simp only [repairWorkspacesPass, if_pos hbr] at h ⊢
      exact ih bu w h
    · simp only [repairWorkspacesPass, if_neg hbr] at h ⊢
      by_cases hid : id = w
      · subst hid
        exact repairPass_usage_mono N pfx rest _ id
          (addUsage_mem_self bu alloc.bridgeNumber id)
      · rw [lookupW, if_neg hid] at h
        exact ih _ w h

/-- Field-level facts about one repaired allocation: the bridge index is
untouched, the VM count ends at most 5, the bridge name ends
canonical. -/
theorem repairAllocation_fields (pfx : String) (alloc : WorkspaceAllocation) :
    (repairAllocation pfx alloc).bridgeNumber = alloc.bridgeNumber ∧
    (repairAllocation pfx alloc).vmCount ≤ 5 ∧
    (repairAllocation pfx alloc).bridgeName =
      pfx ++ "-" ++ toString alloc.bridgeNumber := by
  unfold repairAllocation
  dsimp only
  by_cases h1 : alloc.vmCount > 5
  · rw [if_pos h1]
    by_cases h2 : ({ alloc with vmCount := 0 } : WorkspaceAllocation).bridgeName ≠
        pfx ++ "-" ++ toString alloc.bridgeNumber
    · rw [if_pos h2]
      exact ⟨rfl, by norm_num, rfl⟩
    · rw [if_neg h2]
      push_neg at h2
      exact ⟨rfl, by norm_num, h2⟩
  · rw [if_neg h1]
    by_cases h2 : alloc.bridgeName ≠ pfx ++ "-" ++ toString alloc.bridgeNumber
    · rw [if_pos h2]
      refine ⟨rfl, ?_, rfl⟩
      show alloc.vmCount ≤ 5
      omega
    · rw [if_neg h2]
      push_neg at h2
      refine ⟨rfl, ?_, h2⟩
      show alloc.vmCount ≤ 5
      omega

/-- Every workspace surviving the repair loop satisfies the fabric
invariants: bridge index in range, VM count at most 5, canonical bridge
name. -/
theorem repairPass_survivor_inv (N : Nat) (pfx : String)
    (ws : List (WID × WorkspaceAllocation)) :
    ∀ bu p, p ∈ (repairWorkspacesPass N pfx ws bu).1 →
      0 ≤ p.2.bridgeNumber ∧ p.2.bridgeNumber < (N : Int) ∧ p.2.vmCount ≤ 5 ∧
      p.2.bridgeName = pfx ++ "-" ++ toString p.2.bridgeNumber := by
  induction ws with
  | nil => intro bu p hp; simp [repairWorkspacesPass] at hp
  | cons head rest ih =>
    intro bu p hp
    obtain ⟨id, alloc⟩ := head
    by_cases hbr : alloc.bridgeNumber < 0 ∨ alloc.bridgeNumber ≥ (N : Int)
    · simp only [repairWorkspacesPass, if_pos hbr] at hp
      exact ih bu p hp
    · simp only [repairWorkspacesPass, if_neg hbr, List.mem_cons] at hp
      rcases hp with rfl | htail
      · push_neg at hbr
        obtain ⟨hnum, hcnt, hname⟩ := repairAllocation_fields pfx alloc
        refine ⟨?_, ?_, hcnt, ?_⟩
        · rw [hnum]; exact hbr.1
        · rw [hnum]; exact hbr.2
        · rw [hname, hnum]
      · exact ih _ p htail

/-- After the prune loop, every workspace id remaining in the usage map
belongs to a surviving workspace. -/
theorem pruneUsage_subset (ws : List (WID × WorkspaceAllocation)) :
    ∀ bu, ∀ q ∈ (pruneUsagePass ws bu).1, ∀ w ∈ q.2,
      (lookupW ws w).isSome := by
  intro bu
  induction bu with
  | nil => simp [pruneUsagePass]
  | cons head rest ih =>
    obtain ⟨bn, ids⟩ := head
    intro q hq w hw
    by_cases hlen : (ids.filter (fun x => (lookupW ws x).isSome)).length = 0
    · simp only [pruneUsagePass, if_pos hlen] at hq
      exact ih q hq w hw
    · simp only [pruneUsagePass, if_neg hlen, List.mem_cons] at hq
      rcases hq with rfl | htail
      · exact (List.mem_filter.mp hw).2
      · exact ih q htail w hw

/-- The prune loop keeps every usage entry whose workspace survives. -/
theorem pruneUsage_preserve (ws : List (WID × WorkspaceAllocation)) :
    ∀ bu w, (∃ q ∈ bu, w ∈ q.2) → (lookupW ws w).isSome →
      ∃ q ∈ (pruneUsagePass ws bu).1, w ∈ q.2 := by
  intro bu
  induction bu with
  | nil => intro w h _; simp at h
  | cons head rest ih =>
    obtain ⟨bn, ids⟩ := head
    intro w h hsome
    obtain ⟨q, hq, hw⟩ := h
    rcases List.mem_cons.mp hq with hq1 | hq2
    · subst hq1
      have hmem : w ∈ ids.filter (fun x => (lookupW ws x).isSome) :=
        List.mem_filter.mpr ⟨hw, hsome⟩
      have hlen : ¬ (ids.filter (fun x => (lookupW ws x).isSome)).length = 0 := by
        intro h0
        rw [List.length_eq_zero] at h0
        rw [h0] at hmem
        simp at hmem
      refine ⟨(bn, ids.filter (fun x => (lookupW ws x).isSome)), ?_, hmem⟩
      simp only [pruneUsagePass]
      rw [if_neg hlen]
      exact List.mem_cons_self _ _
    · obtain ⟨q', hq', hw'⟩ := ih w ⟨q, hq2, hw⟩ hsome
      by_cases hlen : (ids.filter (fun x => (lookupW ws x).isSome)).length = 0
      · refine ⟨q', ?_, hw'⟩
        simp only [pruneUsagePass]
        rw [if_pos hlen]
        exact hq'
      · refine ⟨q', ?_, hw'⟩
        simp only [pruneUsagePass]
        rw [if_neg hlen]
        exact List.mem_cons_of_mem _ hq'

/-- C5: after `validateAndRepairState` runs, every surviving workspace
has a bridge index inside `[0, N)` (out-of-range workspaces were
deleted), a VM count at most 5 (larger counts were reset to 0), and the
canonical `<prefix>-<index>` bridge name; and the workspace ids present
in the bridge-usage map are exactly the surviving workspace ids
(orphaned usage entries were pruned, surviving workspaces were
re-registered). -/
theorem c5_repair_invariants (N : Nat) (pfx : String)
    (workspaces : List (WID × WorkspaceAllocation))
    (bridgeUsage : List (Int × List WID)) :
    (∀ p ∈ (validateAndRepairState N pfx workspaces bridgeUsage).1,
      0 ≤ p.2.bridgeNumber ∧ p.2.bridgeNumber < (N : Int) ∧
      p.2.vmCount ≤ 5 ∧
      p.2.bridgeName = pfx ++ "-" ++ toString p.2.bridgeNumber) ∧
    (∀ w : WID,
      (∃ q ∈ (validateAndRepairState N pfx workspaces bridgeUsage).2.1,
        w ∈ q.2) ↔
      (lookupW (validateAndRepairState N pfx workspaces bridgeUsage).1 w).isSome) := by
  constructor
  · intro p hp
    exact repairPass_survivor_inv N pfx workspaces bridgeUsage p hp
  · intro w
    constructor
    · intro h
      exact pruneUsage_subset (repairWorkspacesPass N pfx workspaces bridgeUsage).1
        (repairWorkspacesPass N pfx workspaces bridgeUsage).2.1
        _ h.choose_spec.1 w h.choose_spec.2
    · intro h
      exact pruneUsage_preserve _ _ w
        (repairPass_survivor_mem_usage N pfx workspaces bridgeUsage w h) h

/-- Witness for C5: on the fixture state, workspace `[119]` survives
with `VMCount` reset from 25 to 0 and its bridge name rewritten, and
satisfies the invariants. -/
theorem c5_repair_invariants_witness :
    (([119],
      ({ workspaceID := [119], bridgeNumber := 2, bridgeName := "br-vms-2",
         projectVLANs := [], createdAt := "", vmCount := 0 } :
        WorkspaceAllocation)) ∈
      (validateAndRepairState 8 "br-vms" repairWorkspacesFixture
        repairUsageFixture).1) ∧
    (0 ≤ (2 : Int) ∧ (2 : Int) < (8 : Int) ∧ (0 : Int) ≤ 5 ∧
      "br-vms-2" = "br-vms" ++ "-" ++ toString (2 : Int)) :=
  ⟨by decide,
   (c5_repair_invariants 8 "br-vms" repairWorkspacesFixture
      repairUsageFixture).1
     ([119],
      { workspaceID := [119], bridgeNumber := 2, bridgeName := "br-vms-2",
        projectVLANs := [], createdAt := "", vmCount := 0 })
     (by decide)⟩

/-- Witness for C9 (amended): at `NextVMIndex = 27` both variants return
`172.16.0.29` and advance the index to 28. -/
theorem c9_allocate_vmip_agree_except_28_witness :
    ({ vlanAt28 with nextVMIndex := 27 } : ProjectVLAN).subnetCIDR.bits = 27 ∧
    ({ vlanAt28 with nextVMIndex := 27 } : ProjectVLAN).subnetCIDR.o4 < 256 ∧
    0 ≤ ({ vlanAt28 with nextVMIndex := 27 } : ProjectVLAN).nextVMIndex ∧
    ({ vlanAt28 with nextVMIndex := 27 } : ProjectVLAN).nextVMIndex ≠ 28 ∧
    Multibridge.AllocateVMIP { vlanAt28 with nextVMIndex := 27 } =
      Unnamed007.AllocateVMIP true { vlanAt28 with nextVMIndex := 27 } :=
  ⟨by decide, by decide, by decide, by decide,
   c9_allocate_vmip_agree_except_28 { vlanAt28 with nextVMIndex := 27 }
     (by decide) (by decide) (by decide) (by decide)⟩
